import Mathlib

/-!
Verification of the ingestion-and-retrieval pipeline in
`chat2dbchatbot/tools/ingest.py`, shallowly embedded in Lean 4.

The embedding models:
- the per-document conversion results of the external document converter
  (`ConversionStatus`, `ConvOutcome`, `DocResult`);
- the output directory as an association list of (filename, content),
  where a write with an existing name overwrites it (`writeFile`);
- the database manager as a record holding the result of
  `test_connection()` and the behaviour of `execute_query` on the
  catalog-existence query (`DatabaseManager`, `QueryOutcome`);
- the `VectorSearch` class, with `has_vectors` computed at construction
  by `check_vectors_exist` (the embedding of `_check_vectors_exist`),
  and its methods as explicit state transformers returning the object
  state beside their result;
- index construction and querying as effect traces (`Effect`), since
  document reading, embedding and similarity search are external.
-/

namespace Ingest

/-- Per-document outcome tag of the document converter
(`docling.datamodel.base_models.ConversionStatus`). -/
inductive ConversionStatus where
  | SUCCESS
  | PARTIAL_SUCCESS
  | FAILURE
deriving DecidableEq, Repr

/-- An input file path, reduced to the parts `ingest.py` looks at:
its stem and its extension. -/
structure Path where
  stem : String
  ext : String
deriving DecidableEq, Repr

/-- What the external converter produces for one input file: the status
tag and the serialized document (the JSON text that
`json.dumps(result.document.export_to_dict())` would yield). -/
structure ConvOutcome where
  status : ConversionStatus
  doc : String
deriving DecidableEq, Repr

/-- One element of the list returned by `converter.convert_all`:
it carries its input file (here, the stem used for naming the output),
the status and the converted document. -/
structure DocResult where
  input_stem : String
  status : ConversionStatus
  doc : String
deriving DecidableEq, Repr

/-- Writing a file into a directory: an existing entry with the same
name is overwritten (the source opens the file with mode "w"). -/
def writeFile (fs : List (String × String)) (name content : String) :
    List (String × String) :=
  fs.filter (fun e => e.1 ≠ name) ++ [(name, content)]

/-- The loop state of `convert_documents`: the output directory contents
and the three counters initialised on line 62 of `ingest.py`. -/
structure ConvState where
  fs : List (String × String)
  success_count : Nat
  partial_success_count : Nat
  failure_count : Nat
deriving DecidableEq, Repr

/-- The body of the `for result in results` loop of `convert_documents`:
only a SUCCESS result increments a counter and writes
`<stem>.json`; the other statuses fall through, leaving the state
unchanged (the source has no branch for them). -/
def processResult (s : ConvState) (r : DocResult) : ConvState :=
  if r.status = ConversionStatus.SUCCESS then
    { s with
      success_count := s.success_count + 1,
      fs := writeFile s.fs (r.input_stem ++ ".json") r.doc }
  else
    s

/-- How a catalog-existence query can come back from
`DatabaseManager.execute_query`: either the result value, or a raised
exception (connection failure, permissions, ...). -/
inductive QueryValue where
  | notList
  | rows (rs : List (List Bool))
deriving DecidableEq, Repr

/-- The outcome of `execute_query`: a value, or a raised exception. -/
inductive QueryOutcome where
  | raises (e : String)
  | ok (v : QueryValue)
deriving DecidableEq, Repr

/-- The catalog-existence query issued by `_check_vectors_exist`,
kept structurally: which catalog it consults, and the schema and table
name it filters on. -/
structure CatalogQuery where
  catalog : String
  table_schema : String
  table_name : String
deriving DecidableEq, Repr

/-- The database manager as seen by `ingest.py`: the result of
`test_connection()`, the behaviour of `execute_query` on a catalog
query, and the connection string. -/
structure DatabaseManager where
  test_connection : Bool
  execute_query : CatalogQuery → QueryOutcome
  connection_string : String

/-- The query text built on lines 41-47 of `ingest.py`: an
`information_schema.tables` lookup for table `data_<table_name>` under
schema `public`. -/
def check_vectors_exist_query (table_name : String) : CatalogQuery :=
  { catalog := "information_schema.tables",
    table_schema := "public",
    table_name := "data_" ++ table_name }

/-- A Python computation that either returns a value or raises. -/
inductive PyResult (α : Type) where
  | ok (a : α)
  | exn (e : String)
deriving DecidableEq, Repr

/-- The `try` body of `_check_vectors_exist`: run the query, then
evaluate `isinstance(result, list) and result[0][0]`. A non-list result
fails the `isinstance` check and returns `False`; an empty list, or a
list whose first row is empty, raises `IndexError` at `result[0][0]`. -/
def check_vectors_exist_body (db : DatabaseManager) (table_name : String) :
    PyResult Bool :=
  match db.execute_query ( check_vectors_exist_query table_name) with
  | QueryOutcome.raises e => PyResult.exn e
  | QueryOutcome.ok QueryValue.notList => PyResult.ok false
  | QueryOutcome.ok (QueryValue.rows []) => PyResult.exn "IndexError"
  | QueryOutcome.ok (QueryValue.rows ([] :: _)) => PyResult.exn "IndexError"
  | QueryOutcome.ok (QueryValue.rows ((b :: _) :: _)) => PyResult.ok b

/-- `VectorSearch._check_vectors_exist`: the `try` body wrapped in
`except Exception: return False`. Total by construction — it always
returns a boolean, never propagating an exception. -/
def check_vectors_exist (db : DatabaseManager) (table_name : String) : Bool :=
  match check_vectors_exist_body db table_name with
  | PyResult.ok b => b
  | PyResult.exn _ => false

/-- The `VectorSearch` object state: the fields assigned in
`__init__`. (The `PGVectorStore` configuration is summarised by
`table_name`; the claims never inspect the other constructor
arguments.) -/
structure VectorSearch where
  db_manager : DatabaseManager
  table_name : String
  has_vectors : Bool

/-- `VectorSearch.__init__`: store the manager, fix the table name to
`vector_store`, and compute `has_vectors` by the existence probe. -/
def VectorSearch.init (db : DatabaseManager) : VectorSearch :=
  { db_manager := db,
    table_name := "vector_store",
    has_vectors := check_vectors_exist db "vector_store" }

/-- `VectorSearch.convert_documents`, as a state transformer: the
method assigns no attribute, so the returned object state is the
receiver. `output_dir` is the directory contents before the call
(`mkdir(parents=True, exist_ok=True)` keeps whatever is there).
`convert_all(input_paths, raises_on_error=False)` yields one result per
input, carrying the input file; the loop then counts and serializes.
After the loop, a positive failure tally raises `RuntimeError`. -/
def VectorSearch.convert_documents (vs : VectorSearch)
    (conv : Path → ConvOutcome) (input_paths : List Path)
    (output_dir : List (String × String)) :
    VectorSearch × Except String ConvState :=
  let results := input_paths.map
    (fun p => DocResult.mk p.stem (conv p).status (conv p).doc)
  let s := results.foldl processResult (ConvState.mk output_dir 0 0 0)
  if s.failure_count > 0 then
    (vs, Except.error ("Failed converting " ++ toString s.failure_count ++
      " of " ++ toString input_paths.length ++ " documents."))
  else
    (vs, Except.ok s)

/-- A handle on the vector index: either bound directly to the existing
vector-store table (`VectorStoreIndex.from_vector_store`), or built
from the documents under a directory
(`VectorStoreIndex.from_documents`). -/
inductive IndexHandle where
  | loaded (table_name : String)
  | built (docs_dir : String) (table_name : String)
deriving DecidableEq, Repr

/-- The externally visible actions of the pipeline, recorded as an
effect trace. -/
inductive Effect where
  | probe_catalog
  | convert_stage
  | read_documents
  | embed_documents
  | load_existing
  | run_query (q : String)
deriving DecidableEq, Repr

/-- `VectorSearch.load_index`: bind a handle to the existing table,
reading and embedding nothing. -/
def VectorSearch.load_index (vs : VectorSearch) :
    VectorSearch × (List Effect × IndexHandle) :=
  (vs, ([Effect.load_existing], IndexHandle.loaded vs.table_name))

/-- `VectorSearch.create_index`: reuse the existing index when
`has_vectors` (as computed at construction) holds and no rebuild is
forced; otherwise read every file under `docs_dir` and embed it into a
fresh index. -/
def VectorSearch.create_index (vs : VectorSearch) (docs_dir : String)
    (force_rebuild : Bool) :
    VectorSearch × (List Effect × IndexHandle) :=
  if vs.has_vectors && !force_rebuild then
    vs.load_index
  else
    (vs, ([Effect.read_documents, Effect.embed_documents],
      IndexHandle.built docs_dir vs.table_name))

/-- `VectorSearch.query`: run one similarity query against the handle. -/
def VectorSearch.query (vs : VectorSearch) (index : IndexHandle)
    (query_text : String) : VectorSearch × List Effect :=
  (vs, [Effect.run_query query_text])

/-- The check `if not openai.api_key` on line 129: `os.getenv` returns
`None` when the variable is absent, and the empty string is also falsy. -/
def api_key_missing : Option String → Bool
  | none => true
  | some s => s = ""

/-- The fixed input documents of `main` (line 116). -/
def input_docs : List Path :=
  [Path.mk "Chinook Data Dictionary" ".docx",
   Path.mk "Chinook Data Model" ".docx"]

/-- The single fixed demonstration query of `main` (line 144). -/
def demo_query : String := "What is the album table?"

/-- `main(force_rebuild)`: connectivity check, credential check,
`VectorSearch` construction (which probes the catalog), then either the
full conversion-and-indexing path or the direct load path, and finally
the demonstration query. The result is the effect trace together with
the raised error, if any. -/
def main (conv : Path → ConvOutcome) (db : DatabaseManager)
    (api_key : Option String) (force_rebuild : Bool) :
    List Effect × Option String :=
  if db.test_connection = false then
    ([], some "Database connection failed")
  else if api_key_missing api_key = true then
    ([], some "OPENAI_API_KEY not found in environment variables")
  else
    let searcher := VectorSearch.init db
    if force_rebuild || !searcher.has_vectors then
      match (searcher.convert_documents conv input_docs []).2 with
      | Except.error e =>
          ([Effect.probe_catalog, Effect.convert_stage], some e)
      | Except.ok _ =>
          let r := (searcher.create_index "./db/converted" force_rebuild).2
          (Effect.probe_catalog :: Effect.convert_stage ::
            r.1 ++ (searcher.query r.2 demo_query).2, none)
    else
      let r := (searcher.load_index).2
      (Effect.probe_catalog :: r.1 ++ (searcher.query r.2 demo_query).2, none)

/-! Spec-side readings of the existence check, used to compare the code
against the specification text. -/

/-- Reading of the specification sentence: the query result contains a
row whose boolean flag is true. -/
def has_true_row : QueryOutcome → Bool
  | QueryOutcome.ok (QueryValue.rows rs) => rs.any (fun r => r.head?.getD false)
  | _ => false

/-- What the code actually tests: the result is a list whose first row
is nonempty and has flag true. -/
def first_row_flag : QueryOutcome → Bool
  | QueryOutcome.ok (QueryValue.rows ((b :: _) :: _)) => b
  | _ => false

/-! Concrete instances used to witness or refute the claims. -/

/-- A database whose catalog query reports the vector table present. -/
def dbExists : DatabaseManager :=
  { test_connection := true,
    execute_query := fun _ => QueryOutcome.ok (QueryValue.rows [[true]]),
    connection_string := "postgresql://localhost/vecdb" }

/-- A database whose catalog query reports the vector table absent. -/
def dbAbsent : DatabaseManager :=
  { test_connection := true,
    execute_query := fun _ => QueryOutcome.ok (QueryValue.rows [[false]]),
    connection_string := "postgresql://localhost/vecdb" }

/-- A database whose catalog query raises. -/
def dbRaises : DatabaseManager :=
  { test_connection := true,
    execute_query := fun _ => QueryOutcome.raises "connection refused",
    connection_string := "postgresql://localhost/vecdb" }

/-- A database whose catalog query returns two rows, the first with a
false flag and the second with a true flag. -/
def dbRowsFT : DatabaseManager :=
  { test_connection := true,
    execute_query := fun _ => QueryOutcome.ok (QueryValue.rows [[false], [true]]),
    connection_string := "postgresql://localhost/vecdb" }

/-- A database whose connectivity test fails. -/
def dbDown : DatabaseManager :=
  { test_connection := false,
    execute_query := fun _ => QueryOutcome.raises "connection refused",
    connection_string := "postgresql://localhost/vecdb" }

/-- A converter for which every document converts successfully. -/
def convAllSuccess : Path → ConvOutcome :=
  fun _ => ConvOutcome.mk ConversionStatus.SUCCESS "D"

/-- A converter for which every document fails to convert. -/
def convAllFailure : Path → ConvOutcome :=
  fun _ => ConvOutcome.mk ConversionStatus.FAILURE ""

/-- A converter for which every document converts only in part. -/
def convAllPartialSuccess : Path → ConvOutcome :=
  fun _ => ConvOutcome.mk ConversionStatus.PARTIAL_SUCCESS "D"

/-- The input file a.docx. -/
def pA : Path := Path.mk "a" ".docx"

/-- The input file b.docx. -/
def pB : Path := Path.mk "b" ".docx"

/-- The input file a.pdf: a path distinct from a.docx but with the same
stem. -/
def pA2 : Path := Path.mk "a" ".pdf"

/-- A single generic input file. -/
def pDoc : Path := Path.mk "doc" ".docx"

/-- A fresh VectorSearch over `dbAbsent`, used where the claim does not
depend on the probe result. -/
def vsPlain : VectorSearch := VectorSearch.init dbAbsent

/-! Helper lemmas about the conversion loop. -/

theorem processResult_failure_count (s : ConvState) (r : DocResult) :
    (processResult s r).failure_count = s.failure_count := by
  unfold processResult
  split <;> rfl

theorem foldl_processResult_failure_count (rs : List DocResult) (s : ConvState) :
    (rs.foldl processResult s).failure_count = s.failure_count := by
  induction rs generalizing s with
  | nil => rfl
  | cons r rs ih => rw [List.foldl_cons, ih, processResult_failure_count]

theorem processResult_partial_count (s : ConvState) (r : DocResult) :
    (processResult s r).partial_success_count = s.partial_success_count := by
  unfold processResult
  split <;> rfl

theorem foldl_processResult_partial_count (rs : List DocResult) (s : ConvState) :
    (rs.foldl processResult s).partial_success_count = s.partial_success_count := by
  induction rs generalizing s with
  | nil => rfl
  | cons r rs ih => rw [List.foldl_cons, ih, processResult_partial_count]

/-- The failure counter is never incremented in the loop, so the
`RuntimeError` branch is unreachable and `convert_documents` always
returns the final loop state. -/
theorem convert_documents_eq_ok (vs : VectorSearch) (conv : Path → ConvOutcome)
    (input_paths : List Path) (output_dir : List (String × String)) :
    vs.convert_documents conv input_paths output_dir =
      (vs, Except.ok
        ((input_paths.map
          (fun p => DocResult.mk p.stem (conv p).status (conv p).doc)).foldl
          processResult (ConvState.mk output_dir 0 0 0))) := by
  unfold VectorSearch.convert_documents
  simp [foldl_processResult_failure_count]

/-- Appending a fixed suffix to a string is injective. -/
theorem append_json_injective :
    Function.Injective (fun s : String => s ++ ".json") := by
  intro a b h
  apply String.ext
  have h2 := congrArg String.data h
  simp only [String.data_append] at h2
  exact List.append_cancel_right h2

/-- Writing a fresh name appends the entry. -/
theorem writeFile_not_mem (fs : List (String × String)) (name c : String)
    (h : name ∉ fs.map Prod.fst) : writeFile fs name c = fs ++ [(name, c)] := by
  unfold writeFile
  congr 1
  rw [List.filter_eq_self]
  intro e he
  simp only [ne_eq, decide_eq_true_eq]
  intro hc
  exact h (List.mem_map.mpr ⟨e, he, hc⟩)

/-- Over a batch of all-SUCCESS results whose output names are fresh
and pairwise distinct, the conversion loop appends one entry per result
and counts every result as a success. -/
theorem foldl_processResult_all_success (rs : List DocResult) (s : ConvState)
    (hall : ∀ r ∈ rs, r.status = ConversionStatus.SUCCESS)
    (hnd : (rs.map (fun r => r.input_stem ++ ".json")).Nodup)
    (hfresh : ∀ r ∈ rs, (r.input_stem ++ ".json") ∉ s.fs.map Prod.fst) :
    rs.foldl processResult s =
      ConvState.mk (s.fs ++ rs.map (fun r => (r.input_stem ++ ".json", r.doc)))
        (s.success_count + rs.length) s.partial_success_count
        s.failure_count := by
  induction rs generalizing s with
  | nil => simp
  | cons r rs ih =>
    obtain ⟨fs, sc, pc, fc⟩ := s
    have hs : r.status = ConversionStatus.SUCCESS :=
      hall r (List.mem_cons_self r rs)
    have hfr : (r.input_stem ++ ".json") ∉ fs.map Prod.fst :=
      hfresh r (List.mem_cons_self r rs)
    have hw : processResult (ConvState.mk fs sc pc fc) r =
        ConvState.mk (fs ++ [(r.input_stem ++ ".json", r.doc)])
          (sc + 1) pc fc := by
      simp [processResult, hs, writeFile_not_mem fs _ r.doc hfr]
    have hhd : (r.input_stem ++ ".json") ∉
        rs.map (fun x => x.input_stem ++ ".json") :=
      (List.nodup_cons.mp hnd).1
    rw [List.foldl_cons, hw, ih]
    · simp [List.append_assoc]
      omega
    · intro x hx
      exact hall x (List.mem_cons_of_mem r hx)
    · exact (List.nodup_cons.mp hnd).2
    · intro x hx
      simp only [List.map_append, List.mem_append]
      rintro (hin | hin)
      · exact hfresh x (List.mem_cons_of_mem r hx) hin
      · have hx2 : (x.input_stem ++ ".json") ∈
            rs.map (fun y => y.input_stem ++ ".json") :=
          List.mem_map.mpr ⟨x, hx, rfl⟩
        simp only [List.map_cons, List.map_nil, List.mem_singleton] at hin
        exact hhd (hin ▸ hx2)

/-! The claims. -/

/-- C1 (code bug): with one input whose conversion result has FAILURE
status, `convert_documents` does not raise at all — the failure counter
is never incremented, so it returns success/partial/failure counts
(0, 0, 0) instead of raising a RuntimeError reporting 1 of 1 failed. -/
theorem convert_documents_failure_unreported :
    (vsPlain.convert_documents convAllFailure [pDoc] []).2 =
      Except.ok (ConvState.mk [] 0 0 0) ∧
    ([pDoc].map (fun p => (convAllFailure p).status)).count
      ConversionStatus.FAILURE = 1 := by
  constructor <;> rfl

/-- C8 (code bug): with one input whose conversion result has
PARTIAL_SUCCESS status, `convert_documents` returns a partial-success
count of 0 — the counter is never incremented — although the batch
holds one PARTIAL_SUCCESS result; no output file is written for it. -/
theorem convert_documents_partial_uncounted :
    (vsPlain.convert_documents convAllPartialSuccess [pDoc] []).2 =
      Except.ok (ConvState.mk [] 0 0 0) ∧
    ([pDoc].map (fun p => (convAllPartialSuccess p).status)).count
      ConversionStatus.PARTIAL_SUCCESS = 1 := by
  constructor <;> rfl

/-- C2: when the constructor probe reported existing vectors and no
rebuild is forced, `create_index` is exactly `load_index`: same handle,
and its effect trace holds no document read and no embedding call. -/
theorem create_index_reuses_existing (vs : VectorSearch) (d : String)
    (hv : vs.has_vectors = true) :
    vs.create_index d false = vs.load_index ∧
    Effect.read_documents ∉ (vs.create_index d false).2.1 ∧
    Effect.embed_documents ∉ (vs.create_index d false).2.1 := by
  have h : vs.create_index d false = vs.load_index := by
    unfold VectorSearch.create_index
    rw [hv]
    rfl
  refine ⟨h, ?_, ?_⟩ <;> rw [h] <;> simp [VectorSearch.load_index]

/-- Witness for C2 at a database whose catalog reports the table
present. -/
theorem create_index_reuses_existing_witness :
    (VectorSearch.init dbExists).has_vectors = true ∧
    (VectorSearch.init dbExists).create_index "./db/converted" false =
      (VectorSearch.init dbExists).load_index :=
  ⟨rfl, (create_index_reuses_existing (VectorSearch.init dbExists)
    "./db/converted" rfl).1⟩

/-- C3: whenever the underlying query raises, `_check_vectors_exist`
returns false; it is total (of type Bool), so no exception ever reaches
the caller. -/
theorem check_vectors_exist_swallows_errors (db : DatabaseManager)
    (table_name : String) (e : String)
    (h : db.execute_query (check_vectors_exist_query table_name) =
      QueryOutcome.raises e) :
    check_vectors_exist db table_name = false := by
  unfold check_vectors_exist check_vectors_exist_body
  rw [h]

/-- Witness for C3 at a database whose query raises. -/
theorem check_vectors_exist_swallows_errors_witness :
    check_vectors_exist dbRaises "vector_store" = false :=
  check_vectors_exist_swallows_errors dbRaises "vector_store"
    "connection refused" rfl

/-- C5: with `force_rebuild = true`, `create_index` always reads the
documents under `docs_dir` and embeds them, and never delegates to
`load_index`. -/
theorem create_index_force_rebuild (vs : VectorSearch) (d : String) :
    (vs.create_index d true).2.1 =
      [Effect.read_documents, Effect.embed_documents] ∧
    (vs.create_index d true).2.2 = IndexHandle.built d vs.table_name ∧
    Effect.load_existing ∉ (vs.create_index d true).2.1 := by
  unfold VectorSearch.create_index
  simp

/-- C6 counterexample: a query result with a false-flag first row and a
true-flag second row contains a row whose flag is true, yet the check
returns false (the code inspects only `result[0][0]`). -/
theorem check_vectors_exist_row_flag_cex :
    has_true_row (dbRowsFT.execute_query
      (check_vectors_exist_query "vector_store")) = true ∧
    check_vectors_exist dbRowsFT "vector_store" = false := by
  constructor <;> rfl

/-- C6 as amended: the check issues the `information_schema.tables`
lookup for `data_vector_store` under `public`, and returns true iff the
query returns a list whose first row has a true boolean flag. -/
theorem check_vectors_exist_first_row_flag (db : DatabaseManager) :
    check_vectors_exist_query "vector_store" =
      CatalogQuery.mk "information_schema.tables" "public" "data_vector_store" ∧
    (check_vectors_exist db "vector_store" = true ↔
      first_row_flag (db.execute_query
        (check_vectors_exist_query "vector_store")) = true) := by
  refine ⟨rfl, ?_⟩
  rcases h : db.execute_query (check_vectors_exist_query "vector_store") with e | v
  · simp [check_vectors_exist, check_vectors_exist_body, first_row_flag, h]
  · rcases v with _ | rs
    · simp [check_vectors_exist, check_vectors_exist_body, first_row_flag, h]
    · rcases rs with _ | ⟨row, rest⟩
      · simp [check_vectors_exist, check_vectors_exist_body, first_row_flag, h]
      · rcases row with _ | ⟨b, tl⟩
        · simp [check_vectors_exist, check_vectors_exist_body, first_row_flag, h]
        · simp [check_vectors_exist, check_vectors_exist_body, first_row_flag, h]

/-- C10: no method of `VectorSearch` modifies the object state — in
particular `has_vectors` stays as the constructor probe set it — and
the reuse-versus-rebuild decision of `create_index` is insensitive to
the database manager at call time. -/
theorem has_vectors_fixed_at_construction
    (vs : VectorSearch) (conv : Path → ConvOutcome) (paths : List Path)
    (fs0 : List (String × String)) (d q : String) (f : Bool)
    (idx : IndexHandle) (db db2 : DatabaseManager) :
    (vs.convert_documents conv paths fs0).1 = vs ∧
    (vs.create_index d f).1 = vs ∧
    (vs.load_index).1 = vs ∧
    (vs.query idx q).1 = vs ∧
    (VectorSearch.init db).has_vectors = check_vectors_exist db "vector_store" ∧
    ({ vs with db_manager := db2 }.create_index d f).2 =
      (vs.create_index d f).2 := by
  refine ⟨?_, ?_, rfl, rfl, rfl, ?_⟩
  · simp only [VectorSearch.convert_documents]
    split <;> rfl
  · unfold VectorSearch.create_index
    split <;> rfl
  · unfold VectorSearch.create_index VectorSearch.load_index
    split <;> rfl

/-- C7 counterexample: two distinct input paths with the same stem
(a.docx and a.pdf) both convert successfully, yet the output directory
ends with a single file — the second write overwrites the first — so
the batch does not yield one output file per input path. -/
theorem convert_documents_duplicate_stem_cex :
    (vsPlain.convert_documents convAllSuccess [pA, pA2] []).2 =
      Except.ok (ConvState.mk [("a.json", "D")] 2 0 0) ∧
    [pA, pA2].length = 2 := by
  constructor <;> rfl

/-- C7 as amended: over a fresh output directory, for every batch in
which every document converts successfully and whose input stems are
pairwise distinct, `convert_documents` returns counts (n, 0, 0) and the
output directory holds exactly one JSON file per input path, named by
the input stem. -/
theorem convert_documents_all_success (vs : VectorSearch)
    (conv : Path → ConvOutcome) (input_paths : List Path)
    (hall : ∀ p ∈ input_paths, (conv p).status = ConversionStatus.SUCCESS)
    (hnd : (input_paths.map (fun p => p.stem)).Nodup) :
    (vs.convert_documents conv input_paths []).2 =
      Except.ok (ConvState.mk
        (input_paths.map (fun p => (p.stem ++ ".json", (conv p).doc)))
        input_paths.length 0 0) := by
  have hnd2 : (input_paths.map (fun p => p.stem ++ ".json")).Nodup := by
    have h := hnd.map append_json_injective
    rw [List.map_map] at h
    simpa [Function.comp] using h
  rw [convert_documents_eq_ok]
  rw [foldl_processResult_all_success]
  · simp [List.map_map, Function.comp]
  · intro r hr
    obtain ⟨p, hp, rfl⟩ := List.mem_map.mp hr
    exact hall p hp
  · rw [List.map_map]
    simpa [Function.comp] using hnd2
  · intro r hr
    simp

/-- Witness for C7 as amended: the a.docx, b.docx scenario returns
(2, 0, 0) and the directory holds a.json and b.json. -/
theorem convert_documents_all_success_witness :
    (vsPlain.convert_documents convAllSuccess [pA, pB] []).2 =
      Except.ok (ConvState.mk [("a.json", "D"), ("b.json", "D")] 2 0 0) :=
  (convert_documents_all_success vsPlain convAllSuccess [pA, pB]
      (fun _ _ => rfl) (by decide)).trans (congrArg Except.ok (by decide))

/-- C9: `main` raises on a failed connectivity test before looking at
the credential, and raises on a missing or empty credential when the
connection test passes; in both cases the effect trace is empty, so no
conversion, indexing or querying has run. -/
theorem main_validates_preconditions (conv : Path → ConvOutcome)
    (db : DatabaseManager) (api_key : Option String) (force_rebuild : Bool) :
    (db.test_connection = false →
      main conv db api_key force_rebuild =
        ([], some "Database connection failed")) ∧
    (db.test_connection = true → api_key_missing api_key = true →
      main conv db api_key force_rebuild =
        ([], some "OPENAI_API_KEY not found in environment variables")) := by
  constructor
  · intro h
    simp [main, h]
  · intro h hk
    simp [main, h, hk]

/-- Witness for C9: a dead connection aborts with the connection error
even when the credential is also missing, and a missing credential
aborts when the connection is fine. -/
theorem main_validates_preconditions_witness :
    main convAllSuccess dbDown none false =
      ([], some "Database connection failed") ∧
    main convAllSuccess dbExists none false =
      ([], some "OPENAI_API_KEY not found in environment variables") :=
  ⟨(main_validates_preconditions convAllSuccess dbDown none false).1 rfl,
   (main_validates_preconditions convAllSuccess dbExists none false).2 rfl rfl⟩

/-- C4: past the two precondition checks, `main` converts and builds
exactly when a rebuild is forced or the constructor probe found no
vectors, and otherwise loads the existing index directly; either way
the trace ends with the single fixed demonstration query. -/
theorem main_rebuild_decision (conv : Path → ConvOutcome)
    (db : DatabaseManager) (api_key : Option String) (force_rebuild : Bool)
    (hc : db.test_connection = true) (hk : api_key_missing api_key = false) :
    main conv db api_key force_rebuild =
      (if force_rebuild || !(VectorSearch.init db).has_vectors then
        [Effect.probe_catalog, Effect.convert_stage, Effect.read_documents,
         Effect.embed_documents, Effect.run_query demo_query]
      else
        [Effect.probe_catalog, Effect.load_existing,
         Effect.run_query demo_query], none) ∧
    (Effect.convert_stage ∈ (main conv db api_key force_rebuild).1 ↔
      (force_rebuild = true ∨ (VectorSearch.init db).has_vectors = false)) ∧
    (main conv db api_key force_rebuild).1.getLast? =
      some (Effect.run_query demo_query) := by
  have hok := convert_documents_eq_ok (VectorSearch.init db) conv input_docs []
  have h1 : main conv db api_key force_rebuild =
      (if force_rebuild || !(VectorSearch.init db).has_vectors then
        [Effect.probe_catalog, Effect.convert_stage, Effect.read_documents,
         Effect.embed_documents, Effect.run_query demo_query]
      else
        [Effect.probe_catalog, Effect.load_existing,
         Effect.run_query demo_query], none) := by
    cases hfr : force_rebuild <;>
      cases hv : (VectorSearch.init db).has_vectors <;>
        simp [main, hc, hk, hv, hok, VectorSearch.create_index,
          VectorSearch.load_index, VectorSearch.query]
  refine ⟨h1, ?_, ?_⟩
  · rw [h1]
    cases hfr : force_rebuild <;>
      cases hv : (VectorSearch.init db).has_vectors <;> simp [hv]
  · rw [h1]
    cases force_rebuild <;>
      cases hv : (VectorSearch.init db).has_vectors <;> simp [hv]

/-- Witness for C4 at a reachable database with no vectors and no
forced rebuild: the full conversion-and-indexing path runs, ending with
the demonstration query. -/
theorem main_rebuild_decision_witness :
    main convAllSuccess dbAbsent (some "sk-key") false =
      ([Effect.probe_catalog, Effect.convert_stage, Effect.read_documents,
        Effect.embed_documents, Effect.run_query demo_query], none) := by
  have h := (main_rebuild_decision convAllSuccess dbAbsent (some "sk-key")
    false rfl rfl).1
  rw [h]
  rfl

end Ingest
